import Mathlib

/-!
Verification of the shared 3-layer framework
(`shared/layer_framework/__init__.py`).

The Python module defines, with dataclasses and abstract base classes:
`LayerType`, `ValidationStatus`, `LayerExpectation`, `BufferValidation`,
`DirectionBuffer`, `LayerInterface` (with `TopLayer`, `MiddleLayer`,
`BottomLayer`) and `ThreeLayerOrchestrator`.

Embedding conventions:
- Python values carried through the pipeline are modelled by the inductive
  `PyVal`; an `obj` constructor stands for an arbitrary Python object whose
  truthiness is given and whose `str()` may raise.
- A Python method a subclass may override (`LayerExpectation.validate_input`,
  `MiddleLayer.execute_core_logic`, `MiddleLayer._check_quality_gate`, ...)
  becomes a function-valued field; the base-class body is provided as a
  separate named default.
- Code that may raise returns `Except String` (the `String` is `str(e)`).
- `datetime.now()` is modelled by a `Nat` clock threaded through the calls
  that read the wall clock; each read ticks the clock by one.
- Mutation of `self` becomes explicit state passing: a method returns its
  result together with the updated object.
-/

namespace LayerFramework

/-- `LayerType` enum: TOP = "top", MIDDLE = "middle", BOTTOM = "bottom". -/
inductive LayerType where
  | top
  | middle
  | bottom
deriving DecidableEq, Repr

/-- `.value` of the `LayerType` enum member. -/
def LayerType.value : LayerType → String
  | .top => "top"
  | .middle => "middle"
  | .bottom => "bottom"

/-- `ValidationStatus` enum: PASSED, FAILED, WARNING. -/
inductive ValidationStatus where
  | passed
  | failed
  | warning
deriving DecidableEq, Repr

/-- A Python value flowing through buffers.  `obj b r` models an arbitrary
object: `b` is its truthiness and `r` the outcome of `str()` on it (which a
custom `__str__` may turn into an exception). -/
inductive PyVal where
  | none
  | bool (b : Bool)
  | int (n : Int)
  | str (s : String)
  | list (xs : List PyVal)
  | dict (entries : List (String × PyVal))
  | obj (truthy : Bool) (strRes : Except String String)

/-- Python truthiness, as used by `if self.data`. -/
def PyVal.truthy : PyVal → Bool
  | .none => false
  | .bool b => b
  | .int n => n != 0
  | .str s => s != ""
  | .list xs => !xs.isEmpty
  | .dict es => !es.isEmpty
  | .obj t _ => t

/-- `type(v).__name__`, used by the orchestrator's log entries. -/
def PyVal.type_name : PyVal → String
  | .none => "NoneType"
  | .bool _ => "bool"
  | .int _ => "int"
  | .str _ => "str"
  | .list _ => "list"
  | .dict _ => "dict"
  | .obj _ _ => "object"

mutual

/-- Python `repr()` (container elements are rendered with `repr`).
String escaping inside `repr` of a string is not modelled. -/
def pyRepr : PyVal → Except String String
  | PyVal.none => Except.ok "None"
  | PyVal.bool b => Except.ok (if b then "True" else "False")
  | PyVal.int n => Except.ok (toString n)
  | PyVal.str s => Except.ok ("'" ++ s ++ "'")
  | PyVal.list xs => do
      let parts ← pyReprList xs
      pure ("[" ++ String.intercalate ", " parts ++ "]")
  | PyVal.dict es => do
      let parts ← pyReprEntries es
      pure ("\x7b" ++ String.intercalate ", " parts ++ "\x7d")
  | PyVal.obj _ r => r

/-- `repr` of each element of a Python list. -/
def pyReprList : List PyVal → Except String (List String)
  | [] => Except.ok []
  | v :: vs => do
      let r ← pyRepr v
      let rs ← pyReprList vs
      pure (r :: rs)

/-- `"'k': repr(v)"` for each entry of a Python dict. -/
def pyReprEntries : List (String × PyVal) → Except String (List String)
  | [] => Except.ok []
  | (k, v) :: es => do
      let r ← pyRepr v
      let rs ← pyReprEntries es
      pure (("'" ++ k ++ "': " ++ r) :: rs)

end

/-- Python `str()`: identical to `repr` except on a top-level string. -/
def pyStr : PyVal → Except String String
  | PyVal.str s => Except.ok s
  | v => pyRepr v

/-- `LayerExpectation` dataclass.  `validate_input` / `validate_output` are
methods whose base-class bodies just `return True`; a concrete deployment may
strengthen them, so they are carried as fields (Python dynamic dispatch). -/
structure LayerExpectation where
  layer_type : LayerType
  input_schema : List (String × PyVal)
  output_schema : List (String × PyVal)
  validation_rules : List String
  quality_requirements : List (String × PyVal)
  performance_constraints : List (String × PyVal)
  validate_input : PyVal → Except String Bool
  validate_output : PyVal → Except String Bool

/-- Body of the base-class `LayerExpectation.validate_input`: `return True`. -/
def base_validate_input : PyVal → Except String Bool := fun _ => Except.ok true

/-- Body of the base-class `LayerExpectation.validate_output`: `return True`. -/
def base_validate_output : PyVal → Except String Bool := fun _ => Except.ok true

/-- The `validation_details` dict of a `BufferValidation`: either
`{"input_valid": bool}` (normal path) or `{"error": str(e)}` (except path). -/
inductive ValidationDetails where
  | input_valid (b : Bool)
  | error_key (e : String)
deriving DecidableEq, Repr

/-- `BufferValidation` dataclass. -/
structure BufferValidation where
  status : ValidationStatus
  message : String
  timestamp : Nat
  layer_from : LayerType
  layer_to : LayerType
  data_size : Nat
  validation_details : ValidationDetails
deriving DecidableEq, Repr

/-- `DirectionBuffer` dataclass. -/
structure DirectionBuffer where
  source_layer : LayerType
  target_layer : LayerType
  expectations : LayerExpectation
  data : PyVal
  metadata : List (String × String)
  validation_results : List BufferValidation

/-- `len(str(self.data)) if self.data else 0` (line 106); fallible because
`str()` of the payload may raise. -/
def DirectionBuffer.data_size_calc (b : DirectionBuffer) : Except String Nat :=
  if b.data.truthy then (fun s => s.length) <$> pyStr b.data
  else pure 0

/-- The fallible part of the `try:` block of `DirectionBuffer.validate`:
first `self.expectations.validate_input(self.data)`, then
`len(str(self.data)) if self.data else 0`.  An `Except.error e` is a Python
exception escaping the block with `str(e) = e`. -/
def DirectionBuffer.validate_attempt (b : DirectionBuffer) :
    Except String (Bool × Nat) := do
  let input_valid ← b.expectations.validate_input b.data
  let size ← b.data_size_calc
  pure (input_valid, size)

/-- The `BufferValidation` value constructed by `DirectionBuffer.validate`:
from the attempt's results on the normal path, or from the caught exception
on the `except` path.  `clock` is `datetime.now()`. -/
def DirectionBuffer.outcome (b : DirectionBuffer) (clock : Nat) :
    BufferValidation :=
  match b.validate_attempt with
    | Except.ok (input_valid, size) =>
        { status := if input_valid then ValidationStatus.passed
                    else ValidationStatus.failed
          message := if input_valid then "Buffer validation passed"
                     else "Buffer validation failed"
          timestamp := clock
          layer_from := b.source_layer
          layer_to := b.target_layer
          data_size := size
          validation_details := ValidationDetails.input_valid input_valid }
    | Except.error e =>
        { status := ValidationStatus.failed
          message := "Buffer validation error: " ++ e
          timestamp := clock
          layer_from := b.source_layer
          layer_to := b.target_layer
          data_size := 0
          validation_details := ValidationDetails.error_key e }

/-- `DirectionBuffer.validate`: build the outcome, append it to
`validation_results`, and return it together with the mutated buffer. -/
def DirectionBuffer.validate (b : DirectionBuffer) (clock : Nat) :
    BufferValidation × DirectionBuffer :=
  let v := b.outcome clock
  (v, { b with validation_results := b.validation_results ++ [v] })

/-- Shared body of `LayerInterface.create_output_buffer`: the fresh
expectation is a plain `LayerExpectation(...)` (base class, permissive
predicates), seeded with this stage's `output_schema` as the target's
`input_schema`; `metadata` records creation time and the creating stage's
kind; `validation_results` starts empty. -/
def create_output_buffer_core (layer_type : LayerType)
    (expectations : LayerExpectation) (target_layer : LayerType)
    (data : PyVal) (clock : Nat) : DirectionBuffer :=
  { source_layer := layer_type
    target_layer := target_layer
    expectations :=
      { layer_type := target_layer
        input_schema := expectations.output_schema
        output_schema := []
        validation_rules := []
        quality_requirements := []
        performance_constraints := []
        validate_input := base_validate_input
        validate_output := base_validate_output }
    data := data
    metadata := [("created_at", toString clock),
                 ("source_layer_type", layer_type.value)]
    validation_results := [] }

/-- `TopLayer` (its `layer_type` is fixed to TOP by `__init__`).
`orchestrate` is the abstract method a concrete subclass supplies. -/
structure TopLayer where
  expectations : LayerExpectation
  input_buffer : Option DirectionBuffer
  output_buffer : Option DirectionBuffer
  workflow_definition : List (String × PyVal)
  middle_layer_requirements : List (String × PyVal)
  bottom_layer_requirements : List (String × PyVal)
  orchestrate : PyVal → Except String PyVal

/-- Result of one `process` call on a Top stage.  `validated_input_buffer`
records whether the call ran an inbound-buffer validation gate. -/
structure TopRunResult where
  result : Except String PyVal
  stage : TopLayer
  validated_input_buffer : Bool

/-- The concrete Top `process` (`FactCheckAuditor.process`):
`return await self.orchestrate(input_data)` — no buffer validation gate. -/
def TopLayer.process (t : TopLayer) (input_data : PyVal) : TopRunResult :=
  { result := t.orchestrate input_data
    stage := t
    validated_input_buffer := false }

/-- `TopLayer.create_output_buffer` (inherited from `LayerInterface`):
builds the buffer and stores it as `self.output_buffer`. -/
def TopLayer.create_output_buffer (t : TopLayer) (target : LayerType)
    (data : PyVal) (clock : Nat) : DirectionBuffer × TopLayer :=
  let buf := create_output_buffer_core LayerType.top t.expectations target data clock
  (buf, { t with output_buffer := some buf })

/-- `MiddleLayer` (its `layer_type` is fixed to MIDDLE by `__init__`).
`execute_core_logic` is abstract; `check_quality_gate` models the
overridable `_check_quality_gate` hook (base body: `return True`). -/
structure MiddleLayer where
  expectations : LayerExpectation
  input_buffer : Option DirectionBuffer
  output_buffer : Option DirectionBuffer
  processing_config : List (String × PyVal)
  quality_gates : List String
  execute_core_logic : PyVal → Except String PyVal
  check_quality_gate : String → PyVal → Bool

/-- Base body of `MiddleLayer._check_quality_gate`: `return True`. -/
def base_check_quality_gate : String → PyVal → Bool := fun _ _ => true

/-- Result of one `process` call on a Middle stage: the returned value (or
the raised exception), the mutated stage, the `logger.warning` messages in
order, and whether `execute_core_logic` was invoked. -/
structure MiddleRunResult where
  result : Except String PyVal
  stage : MiddleLayer
  warnings : List String
  core_invoked : Bool

/-- Lines 234-242 of `MiddleLayer.process`: run `execute_core_logic`, then
walk the quality gates, logging a warning for each failing gate. -/
def middle_run_core (m : MiddleLayer) (input_data : PyVal) (clock : Nat) :
    MiddleRunResult × Nat :=
  match m.execute_core_logic input_data with
  | Except.error e =>
      ({ result := Except.error e, stage := m, warnings := [],
         core_invoked := true }, clock)
  | Except.ok result =>
      ({ result := Except.ok result, stage := m,
         warnings :=
           (m.quality_gates.filter
              (fun g => !(m.check_quality_gate g result))).map
             (fun g => "Quality gate '" ++ g ++ "' failed"),
         core_invoked := true }, clock)

/-- `MiddleLayer.process`: if an input buffer is set, validate it and raise
`ValueError("Input validation failed: ...")` on a FAILED outcome; otherwise
run the core logic and the (advisory) quality gates. -/
def MiddleLayer.process (m : MiddleLayer) (input_data : PyVal) (clock : Nat) :
    MiddleRunResult × Nat :=
  match m.input_buffer with
  | Option.none => middle_run_core m input_data clock
  | Option.some buf =>
      let vp := buf.validate clock
      let m' := { m with input_buffer := some vp.2 }
      if vp.1.status = ValidationStatus.failed then
        ({ result := Except.error ("Input validation failed: " ++ vp.1.message)
           stage := m', warnings := [], core_invoked := false }, clock + 1)
      else
        middle_run_core m' input_data (clock + 1)

/-- `MiddleLayer.set_input_buffer` (inherited). -/
def MiddleLayer.set_input_buffer (m : MiddleLayer) (buf : DirectionBuffer) :
    MiddleLayer :=
  { m with input_buffer := some buf }

/-- `MiddleLayer.create_output_buffer` (inherited). -/
def MiddleLayer.create_output_buffer (m : MiddleLayer) (target : LayerType)
    (data : PyVal) (clock : Nat) : DirectionBuffer × MiddleLayer :=
  let buf := create_output_buffer_core LayerType.middle m.expectations target data clock
  (buf, { m with output_buffer := some buf })

/-- `BottomLayer` (its `layer_type` is fixed to BOTTOM by `__init__`).
`finalize_output` is abstract; `apply_finalization_rule` and
`validate_output` model the overridable `_apply_finalization_rule` and
`_validate_output` hooks. -/
structure BottomLayer where
  expectations : LayerExpectation
  input_buffer : Option DirectionBuffer
  output_buffer : Option DirectionBuffer
  finalization_rules : List String
  output_validators : List String
  finalize_output : PyVal → Except String PyVal
  apply_finalization_rule : String → PyVal → PyVal
  validate_output : String → PyVal → Bool

/-- Base body of `BottomLayer._apply_finalization_rule`: `return data`. -/
def base_apply_finalization_rule : String → PyVal → PyVal := fun _ d => d

/-- Base body of `BottomLayer._validate_output`: `return True`. -/
def base_validate_output_hook : String → PyVal → Bool := fun _ _ => true

/-- Result of one `process` call on a Bottom stage. -/
structure BottomRunResult where
  result : Except String PyVal
  stage : BottomLayer
  warnings : List String
  finalize_invoked : Bool

/-- Lines 279-291 of `BottomLayer.process`: fold the finalization rules over
the input, run `finalize_output`, then run the (advisory) output
validators, logging a warning for each failing one. -/
def bottom_run_core (b : BottomLayer) (input_data : PyVal) (clock : Nat) :
    BottomRunResult × Nat :=
  let transformed :=
    b.finalization_rules.foldl (fun d r => b.apply_finalization_rule r d)
      input_data
  match b.finalize_output transformed with
  | Except.error e =>
      ({ result := Except.error e, stage := b, warnings := [],
         finalize_invoked := true }, clock)
  | Except.ok result =>
      ({ result := Except.ok result, stage := b,
         warnings :=
           (b.output_validators.filter
              (fun v => !(b.validate_output v result))).map
             (fun v => "Output validator '" ++ v ++ "' failed"),
         finalize_invoked := true }, clock)

/-- `BottomLayer.process`: same blocking inbound-buffer gate as Middle, then
finalization and advisory output validation. -/
def BottomLayer.process (b : BottomLayer) (input_data : PyVal) (clock : Nat) :
    BottomRunResult × Nat :=
  match b.input_buffer with
  | Option.none => bottom_run_core b input_data clock
  | Option.some buf =>
      let vp := buf.validate clock
      let b' := { b with input_buffer := some vp.2 }
      if vp.1.status = ValidationStatus.failed then
        ({ result := Except.error ("Input validation failed: " ++ vp.1.message)
           stage := b', warnings := [], finalize_invoked := false }, clock + 1)
      else
        bottom_run_core b' input_data (clock + 1)

/-- `BottomLayer.set_input_buffer` (inherited). -/
def BottomLayer.set_input_buffer (b : BottomLayer) (buf : DirectionBuffer) :
    BottomLayer :=
  { b with input_buffer := some buf }

/-- `BottomLayer.create_output_buffer` (inherited). -/
def BottomLayer.create_output_buffer (b : BottomLayer) (target : LayerType)
    (data : PyVal) (clock : Nat) : DirectionBuffer × BottomLayer :=
  let buf := create_output_buffer_core LayerType.bottom b.expectations target data clock
  (buf, { b with output_buffer := some buf })

/-- One entry of the orchestrator's `execution_log`. -/
structure LogEntry where
  timestamp : Nat
  event : String
  details : List (String × String)
deriving DecidableEq, Repr

/-- `ThreeLayerOrchestrator`: the three stages plus the append-only
`execution_log`. -/
structure ThreeLayerOrchestrator where
  top_layer : TopLayer
  middle_layer : MiddleLayer
  bottom_layer : BottomLayer
  execution_log : List LogEntry

/-- `ThreeLayerOrchestrator._log_execution`: append one entry (stamped with
`datetime.now()`, modelled by the clock) to the execution log. -/
def ThreeLayerOrchestrator.log_execution (o : ThreeLayerOrchestrator)
    (event : String) (details : List (String × String)) (clock : Nat) :
    ThreeLayerOrchestrator × Nat :=
  ({ o with execution_log :=
      o.execution_log ++ [{ timestamp := clock, event := event,
                            details := details }] },
   clock + 1)

/-- Observable steps of one `execute_workflow` run, used to state the
sequencing contract.  Each constructor corresponds to one statement of the
method body; the `PyVal` argument of a `processed` event is the value passed
to that stage's `process`. -/
inductive WorkflowEvent where
  | logged (event : String)
  | top_processed (input : PyVal)
  | buffer_created (source target : LayerType) (payload : PyVal)
  | buffer_attached (target : LayerType)
  | middle_processed (input : PyVal)
  | bottom_processed (input : PyVal)

/-- Result of one `execute_workflow` call: the returned value or the
re-raised exception, the mutated orchestrator, the final clock, and the
ordered trace of observable steps. -/
structure WorkflowRun where
  result : Except String PyVal
  orch : ThreeLayerOrchestrator
  clock : Nat
  events : List WorkflowEvent

/-- `ThreeLayerOrchestrator.execute_workflow`, lines 316-350: log
`workflow_start`; Top.process; create and attach the Top→Middle buffer;
Middle.process on the raw top result; create and attach the Middle→Bottom
buffer; Bottom.process on the raw middle result; log `workflow_complete`
and return.  Any exception from the stages is first logged as
`workflow_error` (with `str(e)`) and then re-raised unchanged. -/
def ThreeLayerOrchestrator.execute_workflow (o : ThreeLayerOrchestrator)
    (initial_input : PyVal) (clock : Nat) : WorkflowRun :=
  let p0 := o.log_execution "workflow_start"
    [("input_type", initial_input.type_name)] clock
  let o1 := p0.1
  let c1 := p0.2
  let e1 := [WorkflowEvent.logged "workflow_start"]
  let tr := o1.top_layer.process initial_input
  let o2 := { o1 with top_layer := tr.stage }
  let e2 := e1 ++ [WorkflowEvent.top_processed initial_input]
  match tr.result with
  | Except.error err =>
      let pE := o2.log_execution "workflow_error" [("error", err)] c1
      { result := Except.error err, orch := pE.1, clock := pE.2,
        events := e2 ++ [WorkflowEvent.logged "workflow_error"] }
  | Except.ok top_result =>
      let pb1 := o2.top_layer.create_output_buffer LayerType.middle top_result c1
      let o3 := { o2 with
                  top_layer := pb1.2
                  middle_layer := o2.middle_layer.set_input_buffer pb1.1 }
      let e3 := e2 ++
        [WorkflowEvent.buffer_created LayerType.top LayerType.middle top_result,
         WorkflowEvent.buffer_attached LayerType.middle]
      let pm := o3.middle_layer.process top_result (c1 + 1)
      let o4 := { o3 with middle_layer := pm.1.stage }
      let e4 := e3 ++ [WorkflowEvent.middle_processed top_result]
      match pm.1.result with
      | Except.error err =>
          let pE := o4.log_execution "workflow_error" [("error", err)] pm.2
          { result := Except.error err, orch := pE.1, clock := pE.2,
            events := e4 ++ [WorkflowEvent.logged "workflow_error"] }
      | Except.ok middle_result =>
          let pb2 := o4.middle_layer.create_output_buffer LayerType.bottom
            middle_result pm.2
          let o5 := { o4 with
                      middle_layer := pb2.2
                      bottom_layer := o4.bottom_layer.set_input_buffer pb2.1 }
          let e5 := e4 ++
            [WorkflowEvent.buffer_created LayerType.middle LayerType.bottom
               middle_result,
             WorkflowEvent.buffer_attached LayerType.bottom]
          let pb := o5.bottom_layer.process middle_result (pm.2 + 1)
          let o6 := { o5 with bottom_layer := pb.1.stage }
          let e6 := e5 ++ [WorkflowEvent.bottom_processed middle_result]
          match pb.1.result with
          | Except.error err =>
              let pE := o6.log_execution "workflow_error" [("error", err)] pb.2
              { result := Except.error err, orch := pE.1, clock := pE.2,
                events := e6 ++ [WorkflowEvent.logged "workflow_error"] }
          | Except.ok final_result =>
              let pC := o6.log_execution "workflow_complete"
                [("output_type", final_result.type_name)] pb.2
              { result := Except.ok final_result, orch := pC.1, clock := pC.2,
                events := e6 ++ [WorkflowEvent.logged "workflow_complete"] }

/-! ### Concrete fixtures used by the witness theorems -/

/-- A plain `LayerExpectation(...)` with the base-class predicate bodies. -/
def plain_expectation (lt : LayerType) (out_schema : List (String × PyVal)) :
    LayerExpectation :=
  { layer_type := lt
    input_schema := []
    output_schema := out_schema
    validation_rules := []
    quality_requirements := []
    performance_constraints := []
    validate_input := base_validate_input
    validate_output := base_validate_output }

/-- A buffer whose payload is an object whose `str()` raises. -/
def raising_payload_buffer : DirectionBuffer :=
  { source_layer := LayerType.top
    target_layer := LayerType.middle
    expectations := plain_expectation LayerType.middle []
    data := PyVal.obj true (Except.error "broken str")
    metadata := []
    validation_results := [] }

/-- A buffer with the base-class (always-true) predicate and payload `"x"`. -/
def passing_buffer : DirectionBuffer :=
  { source_layer := LayerType.top
    target_layer := LayerType.middle
    expectations := plain_expectation LayerType.middle []
    data := PyVal.str "x"
    metadata := []
    validation_results := [] }

/-- A buffer whose `validate_input` has been strengthened to reject. -/
def failing_buffer : DirectionBuffer :=
  { source_layer := LayerType.top
    target_layer := LayerType.middle
    expectations :=
      { plain_expectation LayerType.middle [] with
        validate_input := fun _ => Except.ok false }
    data := PyVal.str "x"
    metadata := []
    validation_results := [] }

/-- A buffer with the base predicate and an empty-string (falsy) payload. -/
def falsy_payload_buffer : DirectionBuffer :=
  { source_layer := LayerType.top
    target_layer := LayerType.middle
    expectations := plain_expectation LayerType.middle []
    data := PyVal.str ""
    metadata := []
    validation_results := [] }

/-- A concrete Middle stage: one intentionally failing quality gate. -/
def demo_middle : MiddleLayer :=
  { expectations := plain_expectation LayerType.middle [("m", PyVal.str "out")]
    input_buffer := Option.none
    output_buffer := Option.none
    processing_config := []
    quality_gates := ["accuracy"]
    execute_core_logic := fun _ => Except.ok (PyVal.str "core out")
    check_quality_gate := fun _ _ => false }

/-- A concrete Bottom stage: one intentionally failing output validator. -/
def demo_bottom : BottomLayer :=
  { expectations := plain_expectation LayerType.bottom []
    input_buffer := Option.none
    output_buffer := Option.none
    finalization_rules := []
    output_validators := ["format"]
    finalize_output := fun _ => Except.ok (PyVal.str "final out")
    apply_finalization_rule := base_apply_finalization_rule
    validate_output := fun _ _ => false }

/-- A concrete Top stage whose `orchestrate` succeeds. -/
def demo_top : TopLayer :=
  { expectations := plain_expectation LayerType.top [("t", PyVal.str "out")]
    input_buffer := Option.none
    output_buffer := Option.none
    workflow_definition := []
    middle_layer_requirements := []
    bottom_layer_requirements := []
    orchestrate := fun _ => Except.ok (PyVal.str "top out") }

/-- A concrete Middle stage with all hooks at their base bodies. -/
def quiet_middle : MiddleLayer :=
  { demo_middle with
    quality_gates := []
    check_quality_gate := base_check_quality_gate }

/-- A concrete Bottom stage with all hooks at their base bodies. -/
def quiet_bottom : BottomLayer :=
  { demo_bottom with
    output_validators := []
    validate_output := base_validate_output_hook }

/-- An orchestrator whose three stages all succeed. -/
def demo_orchestrator : ThreeLayerOrchestrator :=
  { top_layer := demo_top
    middle_layer := quiet_middle
    bottom_layer := quiet_bottom
    execution_log := [] }

/-- An orchestrator whose Top stage raises from `orchestrate`. -/
def failing_orchestrator : ThreeLayerOrchestrator :=
  { demo_orchestrator with
    top_layer := { demo_top with
                   orchestrate := fun _ => Except.error "top blew up" } }

/-! ### Helper lemmas -/

/-- The fallible part of `validate` reads only the expectation and the
payload, so appending to `validation_results` cannot change it. -/
theorem validate_attempt_results_irrel (b : DirectionBuffer)
    (rs : List BufferValidation) :
    DirectionBuffer.validate_attempt { b with validation_results := rs }
      = b.validate_attempt := rfl

/-- The constructed outcome likewise ignores `validation_results`. -/
theorem outcome_results_irrel (b : DirectionBuffer)
    (rs : List BufferValidation) (c : Nat) :
    DirectionBuffer.outcome { b with validation_results := rs } c
      = b.outcome c := rfl

/-- On the normal path the attempt is the pair of the predicate's result
and the computed payload size. -/
theorem attempt_of_parts (b : DirectionBuffer) (v : Bool) (sz : Nat)
    (hpred : b.expectations.validate_input b.data = Except.ok v)
    (hsz : b.data_size_calc = Except.ok sz) :
    b.validate_attempt = Except.ok (v, sz) := by
  unfold DirectionBuffer.validate_attempt
  simp only [hpred, hsz]
  rfl

/-- A falsy payload contributes size 0. -/
theorem data_size_calc_falsy (b : DirectionBuffer)
    (h : b.data.truthy = false) : b.data_size_calc = Except.ok 0 := by
  simp [DirectionBuffer.data_size_calc, h]
  rfl

/-- A truthy payload whose `str()` succeeds contributes the length of the
serialization. -/
theorem data_size_calc_truthy (b : DirectionBuffer) (s : String)
    (ht : b.data.truthy = true) (hs : pyStr b.data = Except.ok s) :
    b.data_size_calc = Except.ok s.length := by
  simp [DirectionBuffer.data_size_calc, ht, hs]

/-- The outcome built from a successful attempt. -/
theorem outcome_of_attempt_ok (b : DirectionBuffer) (c : Nat) (v : Bool)
    (sz : Nat) (h : b.validate_attempt = Except.ok (v, sz)) :
    b.outcome c =
      { status := if v then ValidationStatus.passed
                  else ValidationStatus.failed
        message := if v then "Buffer validation passed"
                   else "Buffer validation failed"
        timestamp := c
        layer_from := b.source_layer
        layer_to := b.target_layer
        data_size := sz
        validation_details := ValidationDetails.input_valid v } := by
  unfold DirectionBuffer.outcome
  rw [h]

/-- Changing the clock only changes the outcome's timestamp. -/
theorem outcome_timestamp_shift (b : DirectionBuffer) (c1 c2 : Nat) :
    b.outcome c2 = { b.outcome c1 with timestamp := c2 } := by
  unfold DirectionBuffer.outcome
  rcases h : b.validate_attempt with e | ⟨iv, sz⟩ <;> simp [h]

/-! ### Claims -/

/-- C2: `DirectionBuffer.validate` is total.  If the fallible part of the
`try:` block (predicate call or payload-size computation) raises `e`, the
exception is caught and `validate` still returns a FAILED outcome whose
message and details embed the error text, appended to `validation_results`
like any other outcome. -/
theorem validate_total_on_computation_failure (b : DirectionBuffer)
    (clock : Nat) (e : String) (h : b.validate_attempt = Except.error e) :
    (b.validate clock).1.status = ValidationStatus.failed
  ∧ (b.validate clock).1.message = "Buffer validation error: " ++ e
  ∧ (b.validate clock).1.validation_details = ValidationDetails.error_key e
  ∧ (b.validate clock).2.validation_results
      = b.validation_results ++ [(b.validate clock).1] := by
  have ho : b.outcome clock =
      { status := ValidationStatus.failed
        message := "Buffer validation error: " ++ e
        timestamp := clock
        layer_from := b.source_layer
        layer_to := b.target_layer
        data_size := 0
        validation_details := ValidationDetails.error_key e } := by
    unfold DirectionBuffer.outcome
    rw [h]
  refine ⟨?_, ?_, ?_, rfl⟩
  · show (b.outcome clock).status = _
    rw [ho]
  · show (b.outcome clock).message = _
    rw [ho]
  · show (b.outcome clock).validation_details = _
    rw [ho]

/-- Witness for C2: a payload whose `str()` raises `"broken str"` while the
predicate succeeds, exercising the size-computation failure path. -/
theorem validate_total_on_computation_failure_witness :
    raising_payload_buffer.validate_attempt = Except.error "broken str"
  ∧ ((raising_payload_buffer.validate 0).1.status = ValidationStatus.failed
  ∧ (raising_payload_buffer.validate 0).1.message
      = "Buffer validation error: " ++ "broken str"
  ∧ (raising_payload_buffer.validate 0).1.validation_details
      = ValidationDetails.error_key "broken str"
  ∧ (raising_payload_buffer.validate 0).2.validation_results
      = raising_payload_buffer.validation_results
          ++ [(raising_payload_buffer.validate 0).1]) :=
  ⟨rfl,
   validate_total_on_computation_failure raising_payload_buffer 0 "broken str"
     rfl⟩

/-- C3: every buffer produced by `create_output_buffer(target, data)` has
the creating stage's own kind as `source_layer`, `target` as
`target_layer`, the creating stage's `output_schema` as the fresh
expectation's `input_schema`, an empty validation history, and is stored as
the creating stage's `output_buffer`; this holds for all three stage kinds. -/
theorem create_output_buffer_invariants
    (t : TopLayer) (m : MiddleLayer) (b : BottomLayer)
    (target : LayerType) (data : PyVal) (clock : Nat) :
    ((t.create_output_buffer target data clock).1.source_layer = LayerType.top
  ∧ (t.create_output_buffer target data clock).1.target_layer = target
  ∧ (t.create_output_buffer target data clock).1.expectations.input_schema
      = t.expectations.output_schema
  ∧ (t.create_output_buffer target data clock).1.expectations.layer_type = target
  ∧ (t.create_output_buffer target data clock).1.validation_results = []
  ∧ (t.create_output_buffer target data clock).2.output_buffer
      = some (t.create_output_buffer target data clock).1)
  ∧ ((m.create_output_buffer target data clock).1.source_layer = LayerType.middle
  ∧ (m.create_output_buffer target data clock).1.target_layer = target
  ∧ (m.create_output_buffer target data clock).1.expectations.input_schema
      = m.expectations.output_schema
  ∧ (m.create_output_buffer target data clock).1.expectations.layer_type = target
  ∧ (m.create_output_buffer target data clock).1.validation_results = []
  ∧ (m.create_output_buffer target data clock).2.output_buffer
      = some (m.create_output_buffer target data clock).1)
  ∧ ((b.create_output_buffer target data clock).1.source_layer = LayerType.bottom
  ∧ (b.create_output_buffer target data clock).1.target_layer = target
  ∧ (b.create_output_buffer target data clock).1.expectations.input_schema
      = b.expectations.output_schema
  ∧ (b.create_output_buffer target data clock).1.expectations.layer_type = target
  ∧ (b.create_output_buffer target data clock).1.validation_results = []
  ∧ (b.create_output_buffer target data clock).2.output_buffer
      = some (b.create_output_buffer target data clock).1) :=
  ⟨⟨rfl, rfl, rfl, rfl, rfl, rfl⟩,
   ⟨rfl, rfl, rfl, rfl, rfl, rfl⟩,
   ⟨rfl, rfl, rfl, rfl, rfl, rfl⟩⟩

/-- C5: every `validate` call appends exactly one outcome to
`validation_results`, and a second call on the unchanged buffer reproduces
the same `status` and `message`, the second outcome differing from the
first only in its timestamp; two calls grow the history by exactly two. -/
theorem validate_appends_one_and_idempotent (b : DirectionBuffer)
    (c1 c2 : Nat) :
    (b.validate c1).2.validation_results.length
      = b.validation_results.length + 1
  ∧ ((b.validate c1).2.validate c2).1.status = (b.validate c1).1.status
  ∧ ((b.validate c1).2.validate c2).1.message = (b.validate c1).1.message
  ∧ ((b.validate c1).2.validate c2).1
      = { (b.validate c1).1 with timestamp := c2 }
  ∧ ((b.validate c1).2.validate c2).2.validation_results.length
      = b.validation_results.length + 2 := by
  refine ⟨?_, ?_, ?_, ?_, ?_⟩
  · show (b.validation_results ++ [b.outcome c1]).length
        = b.validation_results.length + 1
    simp
  · show (b.outcome c2).status = (b.outcome c1).status
    rw [outcome_timestamp_shift b c1 c2]
  · show (b.outcome c2).message = (b.outcome c1).message
    rw [outcome_timestamp_shift b c1 c2]
  · exact outcome_timestamp_shift b c1 c2
  · show (b.validation_results ++ [b.outcome c1] ++ [b.outcome c2]).length
        = b.validation_results.length + 2
    simp

/-- C8: the concrete Top stage's `process` returns exactly
`orchestrate(input)`, leaves the stage untouched, and performs no
inbound-buffer validation gate. -/
theorem top_process_delegates (t : TopLayer) (input : PyVal) :
    (t.process input).result = t.orchestrate input
  ∧ (t.process input).validated_input_buffer = false
  ∧ (t.process input).stage = t :=
  ⟨rfl, rfl, rfl⟩

/-- C10: the core validation path only ever produces PASSED or FAILED;
the WARNING member of the status enum is never produced, on either the
normal or the exception branch. -/
theorem validate_status_never_warning (b : DirectionBuffer) (clock : Nat) :
    (b.validate clock).1.status = ValidationStatus.passed
  ∨ (b.validate clock).1.status = ValidationStatus.failed := by
  show (b.outcome clock).status = _ ∨ (b.outcome clock).status = _
  unfold DirectionBuffer.outcome
  rcases h : b.validate_attempt with e | ⟨iv, sz⟩
  · simp [h]
  · cases iv <;> simp [h]

/-- C7 counterexample: a buffer whose predicate returns true yields a
PASSED outcome, but its message is the source's "Buffer validation passed",
not the claimed "validation passed"; moreover, when the predicate returns
true but the size computation raises, the outcome is not even PASSED. -/
theorem validate_message_counterexample :
    (passing_buffer.expectations.validate_input passing_buffer.data
      = Except.ok true
  ∧ (passing_buffer.validate 0).1.status = ValidationStatus.passed
  ∧ ¬ ((passing_buffer.validate 0).1.message = "validation passed")
  ∧ (passing_buffer.validate 0).1.message = "Buffer validation passed")
  ∧ (raising_payload_buffer.expectations.validate_input
       raising_payload_buffer.data = Except.ok true
  ∧ (raising_payload_buffer.validate 0).1.status
      = ValidationStatus.failed) := by
  refine ⟨⟨rfl, rfl, ?_, rfl⟩, rfl, rfl⟩
  decide

/-- C7 (amended): when the predicate returns `v` and the size computation
does not raise, the outcome's status is PASSED/FAILED according to `v` and
its message is "Buffer validation passed"/"Buffer validation failed". -/
theorem validate_message_amended (b : DirectionBuffer) (clock : Nat)
    (v : Bool) (sz : Nat)
    (hpred : b.expectations.validate_input b.data = Except.ok v)
    (hsz : b.data_size_calc = Except.ok sz) :
    (b.validate clock).1.status
      = (if v then ValidationStatus.passed else ValidationStatus.failed)
  ∧ (b.validate clock).1.message
      = (if v then "Buffer validation passed"
         else "Buffer validation failed") := by
  have ho := outcome_of_attempt_ok b clock v sz
    (attempt_of_parts b v sz hpred hsz)
  constructor
  · show (b.outcome clock).status = _
    rw [ho]
  · show (b.outcome clock).message = _
    rw [ho]

/-- Witness for the amended C7: a passing and a failing predicate on the
payload `"x"`. -/
theorem validate_message_amended_witness :
    ((passing_buffer.validate 0).1.status = ValidationStatus.passed
  ∧ (passing_buffer.validate 0).1.message = "Buffer validation passed")
  ∧ ((failing_buffer.validate 0).1.status = ValidationStatus.failed
  ∧ (failing_buffer.validate 0).1.message = "Buffer validation failed") :=
  ⟨validate_message_amended passing_buffer 0 true 1 rfl rfl,
   validate_message_amended failing_buffer 0 false 1 rfl rfl⟩

/-- C9: the reported `data_size` is 0 for every falsy payload (not just an
absent one) — in particular the empty string, empty dict, empty list, the
integer 0, False and None are all falsy — while a truthy payload reports
the length of its string serialization. -/
theorem data_size_of_payload (b : DirectionBuffer) (clock : Nat) (v : Bool)
    (hpred : b.expectations.validate_input b.data = Except.ok v) :
    (b.data.truthy = false → (b.validate clock).1.data_size = 0)
  ∧ (∀ s, b.data.truthy = true → pyStr b.data = Except.ok s →
        (b.validate clock).1.data_size = s.length)
  ∧ (PyVal.str "").truthy = false
  ∧ (PyVal.dict []).truthy = false
  ∧ (PyVal.list []).truthy = false
  ∧ (PyVal.int 0).truthy = false
  ∧ (PyVal.bool false).truthy = false
  ∧ PyVal.none.truthy = false := by
  refine ⟨?_, ?_, by decide, by decide, by decide, by decide, by decide,
          by decide⟩
  · intro ht
    have ho := outcome_of_attempt_ok b clock v 0
      (attempt_of_parts b v 0 hpred (data_size_calc_falsy b ht))
    show (b.outcome clock).data_size = 0
    rw [ho]
  · intro s ht hs
    have ho := outcome_of_attempt_ok b clock v s.length
      (attempt_of_parts b v s.length hpred (data_size_calc_truthy b s ht hs))
    show (b.outcome clock).data_size = s.length
    rw [ho]

/-- Witness for C9: an empty-string (falsy, present) payload reports size
0; the truthy payload `"x"` reports the length of its serialization. -/
theorem data_size_of_payload_witness :
    (falsy_payload_buffer.validate 0).1.data_size = 0
  ∧ (passing_buffer.validate 0).1.data_size = ("x" : String).length :=
  ⟨(data_size_of_payload falsy_payload_buffer 0 true rfl).1 rfl,
   (data_size_of_payload passing_buffer 0 true rfl).2.1 "x" rfl rfl⟩

/-- C1: blocking vs advisory.  For Middle: a FAILED inbound-buffer
validation makes `process` raise (carrying the outcome's message) with
`execute_core_logic` never invoked; a non-FAILED validation with a failing
quality gate still returns the core result, merely logging a warning.  The
same policy holds for Bottom with its output validators. -/
theorem blocking_vs_advisory (input : PyVal) (clock : Nat) :
    (∀ (m : MiddleLayer) (buf : DirectionBuffer),
      m.input_buffer = some buf →
      (buf.validate clock).1.status = ValidationStatus.failed →
      ((m.process input clock).1.result
          = Except.error
              ("Input validation failed: " ++ (buf.validate clock).1.message)
        ∧ (m.process input clock).1.core_invoked = false))
  ∧ (∀ (m : MiddleLayer) (buf : DirectionBuffer) (r : PyVal) (g : String),
      m.input_buffer = some buf →
      ¬ (buf.validate clock).1.status = ValidationStatus.failed →
      m.execute_core_logic input = Except.ok r →
      g ∈ m.quality_gates →
      m.check_quality_gate g r = false →
      ((m.process input clock).1.result = Except.ok r
        ∧ ("Quality gate '" ++ g ++ "' failed")
            ∈ (m.process input clock).1.warnings
        ∧ (m.process input clock).1.core_invoked = true))
  ∧ (∀ (b : BottomLayer) (buf : DirectionBuffer),
      b.input_buffer = some buf →
      (buf.validate clock).1.status = ValidationStatus.failed →
      ((b.process input clock).1.result
          = Except.error
              ("Input validation failed: " ++ (buf.validate clock).1.message)
        ∧ (b.process input clock).1.finalize_invoked = false))
  ∧ (∀ (b : BottomLayer) (buf : DirectionBuffer) (r : PyVal) (w : String),
      b.input_buffer = some buf →
      ¬ (buf.validate clock).1.status = ValidationStatus.failed →
      b.finalize_output
          (b.finalization_rules.foldl
            (fun d rule => b.apply_finalization_rule rule d) input)
        = Except.ok r →
      w ∈ b.output_validators →
      b.validate_output w r = false →
      ((b.process input clock).1.result = Except.ok r
        ∧ ("Output validator '" ++ w ++ "' failed")
            ∈ (b.process input clock).1.warnings
        ∧ (b.process input clock).1.finalize_invoked = true)) := by
  refine ⟨?_, ?_, ?_, ?_⟩
  · intro m buf hbuf hfail
    unfold MiddleLayer.process
    rw [hbuf]
    simp [hfail]
  · intro m buf r g hbuf hpass hcore hg hgate
    unfold MiddleLayer.process
    rw [hbuf]
    simp only [if_neg hpass]
    unfold middle_run_core
    simp only [hcore]
    refine ⟨trivial, ?_, trivial⟩
    exact List.mem_map.mpr ⟨g, List.mem_filter.mpr ⟨hg, by simp [hgate]⟩, rfl⟩
  · intro b buf hbuf hfail
    unfold BottomLayer.process
    rw [hbuf]
    simp [hfail]
  · intro b buf r w hbuf hpass hfin hw hval
    unfold BottomLayer.process
    rw [hbuf]
    simp only [if_neg hpass]
    unfold bottom_run_core
    simp only [hfin]
    refine ⟨trivial, ?_, trivial⟩
    exact List.mem_map.mpr ⟨w, List.mem_filter.mpr ⟨hw, by simp [hval]⟩, rfl⟩

/-- Witness for C1: a Middle/Bottom stage behind the rejecting buffer
blocks without running its core hook; behind the passing buffer, the
intentionally failing gate/validator only yields a warning. -/
theorem blocking_vs_advisory_witness :
    ((({ demo_middle with input_buffer := some failing_buffer
       } : MiddleLayer).process (PyVal.str "in") 0).1.result
        = Except.error
            ("Input validation failed: " ++ "Buffer validation failed")
  ∧ (({ demo_middle with input_buffer := some failing_buffer
      } : MiddleLayer).process (PyVal.str "in") 0).1.core_invoked = false)
  ∧ ((({ demo_middle with input_buffer := some passing_buffer
       } : MiddleLayer).process (PyVal.str "in") 0).1.result
        = Except.ok (PyVal.str "core out")
  ∧ ("Quality gate '" ++ "accuracy" ++ "' failed")
      ∈ (({ demo_middle with input_buffer := some passing_buffer
          } : MiddleLayer).process (PyVal.str "in") 0).1.warnings
  ∧ (({ demo_middle with input_buffer := some passing_buffer
      } : MiddleLayer).process (PyVal.str "in") 0).1.core_invoked = true)
  ∧ ((({ demo_bottom with input_buffer := some failing_buffer
       } : BottomLayer).process (PyVal.str "in") 0).1.result
        = Except.error
            ("Input validation failed: " ++ "Buffer validation failed")
  ∧ (({ demo_bottom with input_buffer := some failing_buffer
      } : BottomLayer).process (PyVal.str "in") 0).1.finalize_invoked = false)
  ∧ ((({ demo_bottom with input_buffer := some passing_buffer
       } : BottomLayer).process (PyVal.str "in") 0).1.result
        = Except.ok (PyVal.str "final out")
  ∧ ("Output validator '" ++ "format" ++ "' failed")
      ∈ (({ demo_bottom with input_buffer := some passing_buffer
          } : BottomLayer).process (PyVal.str "in") 0).1.warnings
  ∧ (({ demo_bottom with input_buffer := some passing_buffer
      } : BottomLayer).process (PyVal.str "in") 0).1.finalize_invoked
        = true) :=
  ⟨(blocking_vs_advisory (PyVal.str "in") 0).1
      { demo_middle with input_buffer := some failing_buffer }
      failing_buffer rfl rfl,
   (blocking_vs_advisory (PyVal.str "in") 0).2.1
      { demo_middle with input_buffer := some passing_buffer }
      passing_buffer (PyVal.str "core out") "accuracy" rfl
      (by decide) rfl (by decide) rfl,
   (blocking_vs_advisory (PyVal.str "in") 0).2.2.1
      { demo_bottom with input_buffer := some failing_buffer }
      failing_buffer rfl rfl,
   (blocking_vs_advisory (PyVal.str "in") 0).2.2.2
      { demo_bottom with input_buffer := some passing_buffer }
      passing_buffer (PyVal.str "final out") "format" rfl
      (by decide) rfl (by decide) rfl⟩

/-- C4: `execute_workflow` either returns normally — logging exactly
`workflow_start` and `workflow_complete` around the run, with no error
entry — or an exception from the stages is first appended to the execution
log as a `workflow_error` entry carrying the error text and then re-raised
unchanged; a stage failure is never swallowed. -/
theorem execute_workflow_error_policy (o : ThreeLayerOrchestrator)
    (input : PyVal) (clock : Nat) :
    (∀ e, (o.execute_workflow input clock).result = Except.error e →
       ∃ pre t, (o.execute_workflow input clock).orch.execution_log
         = o.execution_log ++ pre
             ++ [{ timestamp := t, event := "workflow_error",
                   details := [("error", e)] }])
  ∧ (∀ v, (o.execute_workflow input clock).result = Except.ok v →
       ∃ t, (o.execute_workflow input clock).orch.execution_log
         = o.execution_log
             ++ [{ timestamp := clock, event := "workflow_start",
                   details := [("input_type", input.type_name)] }]
             ++ [{ timestamp := t, event := "workflow_complete",
                   details := [("output_type", v.type_name)] }]) := by
  constructor
  · intro e he
    unfold ThreeLayerOrchestrator.execute_workflow at he ⊢
    unfold ThreeLayerOrchestrator.log_execution at he ⊢
    dsimp only [] at he ⊢
    split at he
    next err heq =>
      dsimp only [] at he
      injection he with h
      subst h
      exact ⟨_, _, rfl⟩
    next top_result heq =>
      split at he
      next err heq2 =>
        dsimp only [] at he
        injection he with h
        subst h
        exact ⟨_, _, rfl⟩
      next middle_result heq2 =>
        split at he
        next err heq3 =>
          dsimp only [] at he
          injection he with h
          subst h
          exact ⟨_, _, rfl⟩
        next final_result heq3 =>
          dsimp only [] at he
          exact Except.noConfusion he
  · intro v hv
    unfold ThreeLayerOrchestrator.execute_workflow at hv ⊢
    unfold ThreeLayerOrchestrator.log_execution at hv ⊢
    dsimp only [] at hv ⊢
    split at hv
    next err heq =>
      dsimp only [] at hv
      exact Except.noConfusion hv
    next top_result heq =>
      split at hv
      next err heq2 =>
        dsimp only [] at hv
        exact Except.noConfusion hv
      next middle_result heq2 =>
        split at hv
        next err heq3 =>
          dsimp only [] at hv
          exact Except.noConfusion hv
        next final_result heq3 =>
          dsimp only [] at hv
          injection hv with h
          subst h
          exact ⟨_, rfl⟩

/-- Witness for C4: a Top stage that raises gets its error text logged as a
`workflow_error` entry; a fully succeeding pipeline logs exactly the
start/complete pair. -/
theorem execute_workflow_error_policy_witness :
    (∃ pre t,
      (failing_orchestrator.execute_workflow (PyVal.str "in") 0).orch.execution_log
        = failing_orchestrator.execution_log ++ pre
            ++ [{ timestamp := t, event := "workflow_error",
                  details := [("error", "top blew up")] }])
  ∧ (∃ t,
      (demo_orchestrator.execute_workflow (PyVal.str "in") 0).orch.execution_log
        = demo_orchestrator.execution_log
            ++ [{ timestamp := 0, event := "workflow_start",
                  details := [("input_type", "str")] }]
            ++ [{ timestamp := t, event := "workflow_complete",
                  details := [("output_type", "str")] }]) :=
  ⟨(execute_workflow_error_policy failing_orchestrator (PyVal.str "in") 0).1
      "top blew up" rfl,
   (execute_workflow_error_policy demo_orchestrator (PyVal.str "in") 0).2
      (PyVal.str "final out") rfl⟩

/-- C6: a successful `execute_workflow` run performs, in this exact order:
log `workflow_start`; Top.process on the initial input; create the
Top→Middle buffer from the top result and attach it to Middle;
Middle.process on the raw top result (not the buffer); create the
Middle→Bottom buffer from the middle result and attach it to Bottom;
Bottom.process on the raw middle result; log `workflow_complete`. -/
theorem execute_workflow_sequencing (o : ThreeLayerOrchestrator)
    (input : PyVal) (clock : Nat) (f : PyVal)
    (h : (o.execute_workflow input clock).result = Except.ok f) :
    ∃ topR midR,
      (o.top_layer.process input).result = Except.ok topR
    ∧ ((o.middle_layer.set_input_buffer
          ((o.top_layer.process input).stage.create_output_buffer
            LayerType.middle topR (clock + 1)).1).process
          topR (clock + 1 + 1)).1.result = Except.ok midR
    ∧ (o.execute_workflow input clock).events =
        [WorkflowEvent.logged "workflow_start",
         WorkflowEvent.top_processed input,
         WorkflowEvent.buffer_created LayerType.top LayerType.middle topR,
         WorkflowEvent.buffer_attached LayerType.middle,
         WorkflowEvent.middle_processed topR,
         WorkflowEvent.buffer_created LayerType.middle LayerType.bottom midR,
         WorkflowEvent.buffer_attached LayerType.bottom,
         WorkflowEvent.bottom_processed midR,
         WorkflowEvent.logged "workflow_complete"] := by
  unfold ThreeLayerOrchestrator.execute_workflow at h ⊢
  unfold ThreeLayerOrchestrator.log_execution at h ⊢
  dsimp only [] at h ⊢
  split at h
  next err heq =>
    dsimp only [] at h
    exact Except.noConfusion h
  next top_result heq =>
    split at h
    next err heq2 =>
      dsimp only [] at h
      exact Except.noConfusion h
    next middle_result heq2 =>
      split at h
      next err heq3 =>
        dsimp only [] at h
        exact Except.noConfusion h
      next final_result heq3 =>
        exact ⟨top_result, middle_result, heq, heq2, rfl⟩

/-- Witness for C6: the fully succeeding demo pipeline produces exactly the
nine-step trace. -/
theorem execute_workflow_sequencing_witness :
    ∃ topR midR,
      (demo_orchestrator.top_layer.process (PyVal.str "in")).result
        = Except.ok topR
    ∧ ((demo_orchestrator.middle_layer.set_input_buffer
          ((demo_orchestrator.top_layer.process (PyVal.str "in")).stage.create_output_buffer
            LayerType.middle topR (0 + 1)).1).process
          topR (0 + 1 + 1)).1.result = Except.ok midR
    ∧ (demo_orchestrator.execute_workflow (PyVal.str "in") 0).events =
        [WorkflowEvent.logged "workflow_start",
         WorkflowEvent.top_processed (PyVal.str "in"),
         WorkflowEvent.buffer_created LayerType.top LayerType.middle topR,
         WorkflowEvent.buffer_attached LayerType.middle,
         WorkflowEvent.middle_processed topR,
         WorkflowEvent.buffer_created LayerType.middle LayerType.bottom midR,
         WorkflowEvent.buffer_attached LayerType.bottom,
         WorkflowEvent.bottom_processed midR,
         WorkflowEvent.logged "workflow_complete"] :=
  execute_workflow_sequencing demo_orchestrator (PyVal.str "in") 0
    (PyVal.str "final out") rfl

end LayerFramework
